import Mathlib

/-!
Verification of the session-scoped conversational context manager of the
ai-BATTLE-ARENA backend: a shallow embedding of `backend/chat_handler.py`
(classes `ChatSession` and `ChatHandler`) and of the document-binding
decision in `backend/app.py` (`chat_with_pdf`), followed by theorems about
session lifecycle, prompt assembly, truncation and error handling.

Python-specific conventions captured by helpers:
  - `joinStrs sep l` is Python's `sep.join(l)`;
  - `pyTake s n` is the slice `s[:n]` (a hard cutoff by character count);
  - `pyLastN l n` is the slice `l[-n:]` (the whole list when `n = 0`);
  - `pyOptStr` renders an `Optional[str]` inside an f-string (`None` text
    for the absent case);
  - Python truthiness of an `Optional[str]` is `o = some c` with `c ≠ ""`.

The external collaborators (the ollama language-model client, the PDF
fetch/extract pipeline) are passed as function parameters of type
`String → Except String String`: `.ok` is a normal return, `.error e` an
exception carrying message `e`. The wall clock is an explicit `now : Nat`
parameter standing for `datetime.now()`.
-/

/-- Python `sep.join(parts)`. -/
def joinStrs (sep : String) : List String → String
  | [] => ""
  | [x] => x
  | x :: y :: xs => x ++ sep ++ joinStrs sep (y :: xs)

/-- Python string slice `s[:n]`: the first `n` characters (all of `s` when
it is shorter). -/
def pyTake (s : String) (n : Nat) : String :=
  ⟨s.data.take n⟩

/-- Python list slice `l[-n:]`: the last `n` elements, the whole list when
`n = 0` (since `l[-0:]` is `l[0:]`). -/
def pyLastN {α : Type} (l : List α) (n : Nat) : List α :=
  if n = 0 then l else l.drop (l.length - n)

/-- Rendering of a Python `Optional[str]` inside an f-string. -/
def pyOptStr : Option String → String
  | none => "None"
  | some s => s

/-- Python `str.strip()`: remove leading and trailing whitespace. -/
def pyStrip (s : String) : String :=
  ⟨((s.data.dropWhile Char.isWhitespace).reverse.dropWhile Char.isWhitespace).reverse⟩

/-- Python `str.upper()` on the roles used here (ASCII upper-casing). -/
def pyUpper (s : String) : String :=
  ⟨s.data.map Char.toUpper⟩

/-- One entry of `ChatSession.messages`: the dict built by `add_message`,
with `role`, `content` and a `timestamp`. -/
structure Message where
  role : String
  content : String
  timestamp : Nat
deriving Repr, DecidableEq

/-- The `ChatSession` class: per-session conversation state. -/
structure ChatSession where
  session_id : String
  messages : List Message
  pdf_context : Option String
  pdf_url : Option String
  created_at : Nat
  last_updated : Nat
deriving Repr, DecidableEq

/-- `ChatSession.__init__`: empty history, no bound document. -/
def ChatSession.init (session_id : String) (now : Nat) : ChatSession :=
  { session_id := session_id
    messages := []
    pdf_context := none
    pdf_url := none
    created_at := now
    last_updated := now }

/-- `ChatSession.add_message`: append one message to the history. -/
def ChatSession.add_message (s : ChatSession) (role content : String) (now : Nat) :
    ChatSession :=
  { s with
    messages := s.messages ++ [{ role := role, content := content, timestamp := now }]
    last_updated := now }

/-- `ChatSession.set_pdf_context`: bind a document (source and text) to the
session, overwriting any prior binding. -/
def ChatSession.set_pdf_context (s : ChatSession) (pdf_url pdf_text : String) (now : Nat) :
    ChatSession :=
  { s with
    pdf_url := some pdf_url
    pdf_context := some pdf_text
    last_updated := now }

/-- The `f"{msg['role'].upper()}: {msg['content']}"` line format used by
`get_conversation_context`. -/
def fmtMsg (m : Message) : String :=
  pyUpper m.role ++ ": " ++ m.content

/-- `ChatSession.get_conversation_context`: the last `max_messages` messages
rendered as `ROLE: content` lines joined by newlines. -/
def ChatSession.get_conversation_context (s : ChatSession) (max_messages : Nat) : String :=
  joinStrs "\n" ((pyLastN s.messages max_messages).map fmtMsg)

/-- The dictionary returned by `ChatHandler.chat`: either the success shape
(`success=True` with message, session id, pdf metadata and conversation
length) or the failure shape (`success=False` with error and fallback
message). -/
inductive ChatResult where
  | ok (message : String) (session_id : String) (has_pdf_context : Bool)
      (pdf_url : Option String) (conversation_length : Nat)
  | err (error : String) (message : String) (session_id : String)
deriving Repr, DecidableEq

/-- The `success` field of the returned dictionary. -/
def ChatResult.success : ChatResult → Bool
  | .ok .. => true
  | .err .. => false

/-- The `conversation_length` field (absent on the failure shape). -/
def ChatResult.conversationLength : ChatResult → Option Nat
  | .ok _ _ _ _ n => some n
  | .err .. => none

/-- The `message` field of the returned dictionary. -/
def ChatResult.msg : ChatResult → String
  | .ok m .. => m
  | .err _ m _ => m

/-- The `error` field (absent on the success shape). -/
def ChatResult.errorField : ChatResult → Option String
  | .ok .. => none
  | .err e _ _ => some e

/-- The `ChatHandler` class: the session store. The Python dict
`self.sessions` is modelled as a function from identifiers to optional
sessions. -/
structure ChatHandler where
  model_name : String
  sessions : String → Option ChatSession

/-- Point update of the session store (`self.sessions[sid] = v`, or
`del self.sessions[sid]` for `v = none`). -/
def setStore (f : String → Option ChatSession) (sid : String)
    (v : Option ChatSession) : String → Option ChatSession :=
  fun k => if k = sid then v else f k

/-- `ChatHandler.__init__` with the default model name and empty store. -/
def ChatHandler.init : ChatHandler :=
  { model_name := "deepseek-r1:1.5b", sessions := fun _ => none }

/-- `ChatHandler.create_session`: store and return a fresh session. -/
def ChatHandler.create_session (h : ChatHandler) (session_id : String) (now : Nat) :
    ChatHandler × ChatSession :=
  let session := ChatSession.init session_id now
  ({ h with sessions := setStore h.sessions session_id (some session) }, session)

/-- `ChatHandler.get_session`: the existing session or `None`. -/
def ChatHandler.get_session (h : ChatHandler) (session_id : String) : Option ChatSession :=
  h.sessions session_id

/-- `ChatHandler.get_or_create_session`. -/
def ChatHandler.get_or_create_session (h : ChatHandler) (session_id : String) (now : Nat) :
    ChatHandler × ChatSession :=
  match h.sessions session_id with
  | none => h.create_session session_id now
  | some s => (h, s)

/-- The fixed system instruction emitted by `_build_prompt`. -/
def sysInstruction : String :=
  "You are a helpful AI assistant. Provide clear, accurate, and friendly responses."

/-- The labeled document block emitted by `_build_prompt` (an f-string over
the session's `pdf_url` and the truncated context). -/
def docBlock (url : Option String) (ctx : String) : String :=
  "\n\nYou have access to the following document:\nDocument URL: " ++ pyOptStr url ++
    "\nDocument Content:\n" ++ ctx ++
    "\nUse this document to answer questions when relevant."

/-- The document section of `_build_prompt`: appended only when
`use_pdf_context and session.pdf_context` is truthy (so absent or empty
context yields nothing), with the context truncated to 10,000 characters
(`session.pdf_context[:10000]`). -/
def docParts (session : ChatSession) (use_pdf_context : Bool) : List String :=
  match session.pdf_context with
  | none => []
  | some ctx =>
    if use_pdf_context = true ∧ ctx ≠ "" then
      [docBlock session.pdf_url (pyTake ctx 10000)]
    else []

/-- The history section of `_build_prompt`: appended only when the session
has more than one message and the rendered recent context is truthy. -/
def histParts (session : ChatSession) : List String :=
  if session.messages.length > 1 then
    if session.get_conversation_context 10 ≠ "" then
      ["\n\nConversation History:\n" ++ session.get_conversation_context 10]
    else []
  else []

/-- The trailing `User: ... Assistant:` cue of `_build_prompt`. -/
def tailPart (current_message : String) : String :=
  "\n\nUser: " ++ current_message ++ "\n\nAssistant:"

/-- `ChatHandler._build_prompt`: system instruction, optional document block
(truncated to 10,000 characters, guarded by Python truthiness of
`session.pdf_context`), optional history block (guarded by
`len(session.messages) > 1` and truthiness of the rendered context), and
the trailing user/assistant cue, joined by newlines. -/
def ChatHandler.build_prompt (session : ChatSession) (current_message : String)
    (use_pdf_context : Bool) : String :=
  joinStrs "\n"
    ([sysInstruction] ++ docParts session use_pdf_context ++ histParts session ++
      [tailPart current_message])

/-- The fallback message of the failure shape of `ChatHandler.chat`. -/
def chatFallbackMessage : String :=
  "Sorry, I encountered an error processing your message."

/-- `ChatHandler.chat`: get-or-create the session, append the user message,
build the prompt, call the model (`llm`), and on success append and return
the stripped reply; on failure return the failure shape without touching
the history further. -/
def ChatHandler.chat (h : ChatHandler) (llm : String → Except String String)
    (session_id user_message : String) (use_pdf_context : Bool) (now : Nat) :
    ChatHandler × ChatResult :=
  let hs := h.get_or_create_session session_id now
  let session := hs.2.add_message "user" user_message now
  let h1 : ChatHandler :=
    { hs.1 with sessions := setStore hs.1.sessions session_id (some session) }
  let prompt := ChatHandler.build_prompt session user_message use_pdf_context
  match llm prompt with
  | .ok response =>
    let ai_message := pyStrip response
    let session2 := session.add_message "assistant" ai_message now
    let h2 : ChatHandler :=
      { h1 with sessions := setStore h1.sessions session_id (some session2) }
    (h2, .ok ai_message session_id session2.pdf_context.isSome session2.pdf_url
          session2.messages.length)
  | .error e =>
    (h1, .err e chatFallbackMessage session_id)

/-- `ChatHandler.clear_session`: delete the session if present; report
whether one existed. -/
def ChatHandler.clear_session (h : ChatHandler) (session_id : String) :
    ChatHandler × Bool :=
  if (h.sessions session_id).isSome then
    ({ h with sessions := setStore h.sessions session_id none }, true)
  else
    (h, false)

/-- `ChatHandler.get_session_history`: the session's message list, or `None`
when the session does not exist. Read-only. -/
def ChatHandler.get_session_history (h : ChatHandler) (session_id : String) :
    Option (List Message) :=
  match h.get_session session_id with
  | some session => some session.messages
  | none => none

/-- The `chat_with_pdf` request handler of `app.py`: get-or-create the
session; if the session's bound source differs from the requested one
(string equality, `None` never equal), fetch and extract the document and
bind it; then run `ChatHandler.chat` with document context enabled. A
fetch/extract failure propagates as `.error` (mapped to an HTTP error by
the boundary), leaving the store as it was after the get-or-create. -/
def chat_with_pdf (h : ChatHandler) (fetch llm : String → Except String String)
    (session_id pdf_url message : String) (now : Nat) :
    ChatHandler × Except String ChatResult :=
  let hs := h.get_or_create_session session_id now
  if hs.2.pdf_url = some pdf_url then
    let hr := hs.1.chat llm session_id message true now
    (hr.1, .ok hr.2)
  else
    match fetch pdf_url with
    | .error e => (hs.1, .error e)
    | .ok pdf_text =>
      let session := hs.2.set_pdf_context pdf_url pdf_text now
      let h1 : ChatHandler :=
        { hs.1 with sessions := setStore hs.1.sessions session_id (some session) }
      let hr := h1.chat llm session_id message true now
      (hr.1, .ok hr.2)

/-- The document-binding consistency of one session: the extracted text and
the source identifier are both absent or both set. -/
def docConsistent (s : ChatSession) : Prop :=
  s.pdf_context.isSome = s.pdf_url.isSome

/-- Store-wide document-binding consistency: every stored session is
`docConsistent`. -/
def StoreConsistent (h : ChatHandler) : Prop :=
  ∀ sid s, h.sessions sid = some s → docConsistent s

/-! ### Concrete fixtures used by the witnesses -/

/-- A 50,000-character document text. -/
def bigDoc : String :=
  ⟨List.replicate 50000 'a'⟩

/-- A session bound to `bigDoc`. -/
def bigSession : ChatSession :=
  { session_id := "s2"
    messages := []
    pdf_context := some bigDoc
    pdf_url := some "http://example.com/a.pdf"
    created_at := 0
    last_updated := 0 }

/-- Fifteen messages with distinct contents `"0"` … `"14"`. -/
def fifteenMessages : List Message :=
  (List.range 15).map fun i => { role := "user", content := Nat.repr i, timestamp := i }

/-- A session holding `fifteenMessages` and no document. -/
def fifteenSession : ChatSession :=
  { session_id := "s3"
    messages := fifteenMessages
    pdf_context := none
    pdf_url := none
    created_at := 0
    last_updated := 0 }

/-- A store holding `bigSession` (bound to `"http://example.com/a.pdf"`)
under key `"s2"`. -/
def boundHandler : ChatHandler :=
  { model_name := "deepseek-r1:1.5b"
    sessions := setStore (fun _ => none) "s2" (some bigSession) }

/-- A session with exactly one prior message. -/
def oneMsgSession : ChatSession :=
  { session_id := "s4"
    messages := [{ role := "user", content := "first", timestamp := 0 }]
    pdf_context := none
    pdf_url := none
    created_at := 0
    last_updated := 0 }

/-! ### Helper lemmas -/

theorem setStore_same (f : String → Option ChatSession) (sid : String)
    (v : Option ChatSession) : setStore f sid v sid = v := by
  simp [setStore]

theorem setStore_other (f : String → Option ChatSession) (sid k : String)
    (v : Option ChatSession) (hk : k ≠ sid) : setStore f sid v k = f k := by
  simp [setStore, hk]

theorem strAppend_assoc (a b c : String) : a ++ b ++ c = a ++ (b ++ c) := by
  apply String.ext
  simp

theorem joinStrs_cons_cons (sep a b : String) (l : List String) :
    joinStrs sep (a :: b :: l) = a ++ sep ++ joinStrs sep (b :: l) := rfl

theorem joinStrs_append_singleton (sep x : String) :
    ∀ l : List String, l ≠ [] → joinStrs sep (l ++ [x]) = joinStrs sep l ++ sep ++ x
  | [], h => absurd rfl h
  | [a], _ => rfl
  | a :: b :: bs, _ => by
    have ih := joinStrs_append_singleton sep x (b :: bs) (by simp)
    show a ++ sep ++ joinStrs sep ((b :: bs) ++ [x])
      = a ++ sep ++ joinStrs sep (b :: bs) ++ sep ++ x
    rw [ih]
    apply String.ext
    simp

theorem joinStrs_cons_ne_empty (sep x : String) (xs : List String) (hx : x ≠ "") :
    joinStrs sep (x :: xs) ≠ "" := by
  cases xs with
  | nil => simpa [joinStrs] using hx
  | cons y ys =>
    intro h
    rw [joinStrs_cons_cons, String.ext_iff] at h
    simp at h
    exact hx (String.ext (by simp [h.1]))

theorem fmtMsg_ne_empty (m : Message) : fmtMsg m ≠ "" := by
  intro h
  have hl : (fmtMsg m).length = 0 := by rw [h]; rfl
  rw [fmtMsg] at hl
  simp [String.length_append] at hl
  have h2 : (": " : String).length = 2 := rfl
  omega

theorem pyLastN_ne_nil {α : Type} (l : List α) (n : Nat) (h : l ≠ []) :
    pyLastN l n ≠ [] := by
  unfold pyLastN
  split
  · exact h
  · rw [ne_eq, List.drop_eq_nil_iff]
    have : 0 < l.length := List.length_pos.mpr h
    omega

theorem get_conversation_context_ne_empty (s : ChatSession) (h : s.messages ≠ []) :
    s.get_conversation_context 10 ≠ "" := by
  unfold ChatSession.get_conversation_context
  obtain ⟨m, rest, hm⟩ := List.exists_cons_of_ne_nil (pyLastN_ne_nil s.messages 10 h)
  rw [hm, List.map_cons]
  exact joinStrs_cons_ne_empty _ _ _ (fmtMsg_ne_empty m)

theorem build_prompt_of_hist (session : ChatSession) (msg : String) (upc : Bool)
    (hlen : session.messages.length > 1) :
    ChatHandler.build_prompt session msg upc =
      joinStrs "\n" ([sysInstruction] ++ docParts session upc ++
        ["\n\nConversation History:\n" ++ session.get_conversation_context 10] ++
        [tailPart msg]) := by
  have hne : session.messages ≠ [] := by
    intro h0
    rw [h0] at hlen
    simp at hlen
  unfold ChatHandler.build_prompt histParts
  rw [if_pos hlen, if_pos (get_conversation_context_ne_empty _ hne)]

theorem get_or_create_stores (h : ChatHandler) (sid : String) (now : Nat) :
    (h.get_or_create_session sid now).1.sessions sid
      = some (h.get_or_create_session sid now).2 := by
  unfold ChatHandler.get_or_create_session ChatHandler.create_session
  cases hc : h.sessions sid <;> simp [hc, setStore]

/-! ### Claim theorems -/

/-- Claim C5: `get_or_create_session` on an unknown identifier returns and
stores a session with empty history and no bound document, and a second
call with the same identifier returns that same stored handler and session
state (even at a later clock) rather than a fresh one; the operation is a
total function, so it never fails. -/
theorem get_or_create_fresh_session (h : ChatHandler) (sid : String) (now now2 : Nat)
    (habs : h.sessions sid = none) :
    (h.get_or_create_session sid now).2 = ChatSession.init sid now
      ∧ (h.get_or_create_session sid now).2.messages = []
      ∧ (h.get_or_create_session sid now).2.pdf_context = none
      ∧ (h.get_or_create_session sid now).2.pdf_url = none
      ∧ (h.get_or_create_session sid now).1.get_session sid
          = some (h.get_or_create_session sid now).2
      ∧ (h.get_or_create_session sid now).1.get_or_create_session sid now2
          = ((h.get_or_create_session sid now).1, (h.get_or_create_session sid now).2) := by
  unfold ChatHandler.get_or_create_session ChatHandler.create_session ChatHandler.get_session
  rw [habs]
  simp [ChatSession.init, setStore]

/-- Witness for C5 at the empty store with identifier `"s1"` and distinct
clock values for the two calls. -/
theorem get_or_create_fresh_session_witness :
    (ChatHandler.init.get_or_create_session "s1" 3).2 = ChatSession.init "s1" 3
      ∧ (ChatHandler.init.get_or_create_session "s1" 3).2.messages = []
      ∧ (ChatHandler.init.get_or_create_session "s1" 3).2.pdf_context = none
      ∧ (ChatHandler.init.get_or_create_session "s1" 3).2.pdf_url = none
      ∧ (ChatHandler.init.get_or_create_session "s1" 3).1.get_session "s1"
          = some (ChatHandler.init.get_or_create_session "s1" 3).2
      ∧ (ChatHandler.init.get_or_create_session "s1" 3).1.get_or_create_session "s1" 7
          = ((ChatHandler.init.get_or_create_session "s1" 3).1,
              (ChatHandler.init.get_or_create_session "s1" 3).2) :=
  get_or_create_fresh_session ChatHandler.init "s1" 3 7 rfl

/-- Claim C6: the read-only history query returns an explicit not-found
result (`none`, distinct from `some []`, the empty history) for an unknown
identifier, and the stored ordered message sequence for a known one; by
its type it takes the store and returns only the query result, mirroring
that the Python method only reads `self.sessions` and never inserts. -/
theorem get_history_read_only (h : ChatHandler) (sid : String) :
    (h.sessions sid = none →
        h.get_session_history sid = none ∧ h.get_session_history sid ≠ some [])
      ∧ ∀ s : ChatSession, h.sessions sid = some s →
          h.get_session_history sid = some s.messages := by
  constructor
  · intro habs
    unfold ChatHandler.get_session_history ChatHandler.get_session
    rw [habs]
    simp
  · intro s hs
    unfold ChatHandler.get_session_history ChatHandler.get_session
    rw [hs]

/-- Witness for C6: not-found on the empty store, and the stored (empty)
history right after a session is created. -/
theorem get_history_read_only_witness :
    (ChatHandler.init.get_session_history "s1" = none
        ∧ ChatHandler.init.get_session_history "s1" ≠ some [])
      ∧ (ChatHandler.init.create_session "s2" 0).1.get_session_history "s2"
          = some [] :=
  ⟨(get_history_read_only ChatHandler.init "s1").1 rfl,
    (get_history_read_only (ChatHandler.init.create_session "s2" 0).1 "s2").2
      (ChatSession.init "s2" 0) rfl⟩

/-- Claim C7: `clear_session` returns `true` exactly when a session existed,
removes it, is idempotent (a repeat returns `false` and leaves the handler
exactly as it was), and a subsequent `get_or_create_session` on the same
identifier yields a fresh empty session with no residue. -/
theorem clear_session_spec (h : ChatHandler) (sid : String) (now : Nat) :
    (h.clear_session sid).2 = (h.sessions sid).isSome
      ∧ (h.clear_session sid).1.sessions sid = none
      ∧ (h.clear_session sid).1.clear_session sid = ((h.clear_session sid).1, false)
      ∧ ((h.clear_session sid).1.get_or_create_session sid now).2
          = ChatSession.init sid now := by
  cases hc : h.sessions sid <;>
    simp [ChatHandler.clear_session, ChatHandler.get_or_create_session,
      ChatHandler.create_session, setStore, hc]

/-- Claim C1: one successful `chat` call appends exactly the new user
message and then the assistant reply (the model output, stripped) to the
session's prior history, and returns the success shape whose
`conversation_length` is the prior length plus two. -/
theorem chat_success_appends_two (h : ChatHandler) (llm : String → Except String String)
    (sid msg : String) (upc : Bool) (now : Nat) (resp : String)
    (hok : llm (ChatHandler.build_prompt
        ((h.get_or_create_session sid now).2.add_message "user" msg now) msg upc)
      = Except.ok resp) :
    ((h.chat llm sid msg upc now).1.get_session sid).map ChatSession.messages
        = some ((h.get_or_create_session sid now).2.messages ++
            [{ role := "user", content := msg, timestamp := now },
             { role := "assistant", content := pyStrip resp, timestamp := now }])
      ∧ (h.chat llm sid msg upc now).2.success = true
      ∧ (h.chat llm sid msg upc now).2.conversationLength
          = some ((h.get_or_create_session sid now).2.messages.length + 2) := by
  simp only [ChatHandler.chat]
  rw [hok]
  simp [ChatHandler.get_session, setStore, ChatSession.add_message,
    ChatResult.success, ChatResult.conversationLength]

/-- Witness for C1: on the empty store, session `"s1"`, message `"Hello"`,
and a model replying `" Hi. "`, the history becomes the user message
followed by the stripped reply and the reported length is two. -/
theorem chat_success_appends_two_witness :
    ((ChatHandler.init.chat (fun _ => Except.ok " Hi. ") "s1" "Hello" true 0).1.get_session
          "s1").map ChatSession.messages
        = some [{ role := "user", content := "Hello", timestamp := 0 },
                { role := "assistant", content := "Hi.", timestamp := 0 }]
      ∧ (ChatHandler.init.chat (fun _ => Except.ok " Hi. ") "s1" "Hello" true 0).2.success
          = true
      ∧ (ChatHandler.init.chat (fun _ => Except.ok " Hi. ") "s1" "Hello" true
            0).2.conversationLength = some 2 :=
  chat_success_appends_two ChatHandler.init (fun _ => Except.ok " Hi. ") "s1" "Hello"
    true 0 " Hi. " rfl

/-- Claim C2: when the model call fails, the just-appended user message
remains in the session's history, no assistant message is appended, the
session is otherwise unchanged, and `chat` returns the failure shape with
`success=false`, the error text, and the non-empty fallback message. -/
theorem chat_failure_keeps_user_message (h : ChatHandler)
    (llm : String → Except String String) (sid msg : String) (upc : Bool) (now : Nat)
    (e : String)
    (herr : llm (ChatHandler.build_prompt
        ((h.get_or_create_session sid now).2.add_message "user" msg now) msg upc)
      = Except.error e) :
    (h.chat llm sid msg upc now).1.get_session sid
        = some ((h.get_or_create_session sid now).2.add_message "user" msg now)
      ∧ (h.chat llm sid msg upc now).2 = ChatResult.err e chatFallbackMessage sid
      ∧ (h.chat llm sid msg upc now).2.success = false
      ∧ (h.chat llm sid msg upc now).2.errorField = some e
      ∧ (h.chat llm sid msg upc now).2.msg = chatFallbackMessage
      ∧ chatFallbackMessage ≠ "" := by
  simp only [ChatHandler.chat]
  rw [herr]
  refine ⟨?_, rfl, rfl, rfl, rfl, by decide⟩
  simp [ChatHandler.get_session, setStore]

/-- Witness for C2: on the empty store with a model that always raises, the
user message is recorded and the failure shape is returned. -/
theorem chat_failure_keeps_user_message_witness :
    (ChatHandler.init.chat (fun _ => Except.error "boom") "s1" "Hello" true 0).1.get_session
          "s1"
        = some ((ChatHandler.init.get_or_create_session "s1" 0).2.add_message "user"
            "Hello" 0)
      ∧ (ChatHandler.init.chat (fun _ => Except.error "boom") "s1" "Hello" true 0).2
          = ChatResult.err "boom" chatFallbackMessage "s1"
      ∧ (ChatHandler.init.chat (fun _ => Except.error "boom") "s1" "Hello" true
            0).2.success = false
      ∧ (ChatHandler.init.chat (fun _ => Except.error "boom") "s1" "Hello" true
            0).2.errorField = some "boom"
      ∧ (ChatHandler.init.chat (fun _ => Except.error "boom") "s1" "Hello" true 0).2.msg
          = chatFallbackMessage
      ∧ chatFallbackMessage ≠ "" :=
  chat_failure_keeps_user_message ChatHandler.init (fun _ => Except.error "boom") "s1"
    "Hello" true 0 "boom" rfl

/-- Claim C3: with document context requested and a (truthy) bound document
text `d`, the assembled prompt embeds the document block built from
`pyTake d 10000`, the hard character cutoff at 10,000: its characters are
exactly the first `min 10000 d.length` characters of `d`, so its length
never exceeds 10,000. -/
theorem prompt_truncates_document (session : ChatSession) (msg d : String)
    (hctx : session.pdf_context = some d) (hne : d ≠ "") :
    ChatHandler.build_prompt session msg true
        = joinStrs "\n" ([sysInstruction] ++
            [docBlock session.pdf_url (pyTake d 10000)] ++ histParts session ++
            [tailPart msg])
      ∧ (pyTake d 10000).data = d.data.take 10000
      ∧ (pyTake d 10000).length = min 10000 d.length
      ∧ (pyTake d 10000).length ≤ 10000 := by
  refine ⟨?_, rfl, ?_, ?_⟩
  · unfold ChatHandler.build_prompt docParts
    rw [hctx]
    simp [hne]
  · show (d.data.take 10000).length = min 10000 d.data.length
    simp
  · show (d.data.take 10000).length ≤ 10000
    simp

/-- Witness for C3: the 50,000-character document is cut to exactly its
first 10,000 characters in the embedded document block. -/
theorem prompt_truncates_document_witness :
    (ChatHandler.build_prompt bigSession "Q" true
        = joinStrs "\n" ([sysInstruction] ++
            [docBlock bigSession.pdf_url (pyTake bigDoc 10000)] ++ histParts bigSession ++
            [tailPart "Q"])
      ∧ (pyTake bigDoc 10000).data = bigDoc.data.take 10000
      ∧ (pyTake bigDoc 10000).length = min 10000 bigDoc.length
      ∧ (pyTake bigDoc 10000).length ≤ 10000)
      ∧ pyTake bigDoc 10000 = ⟨List.replicate 10000 'a'⟩ :=
  ⟨prompt_truncates_document bigSession "Q" bigDoc rfl (by decide),
    by
      show String.mk ((List.replicate 50000 'a').take 10000)
        = String.mk (List.replicate 10000 'a')
      rw [List.take_replicate]
      norm_num⟩

/-- Claim C4: when the session has more than one message, the assembled
prompt contains the Conversation History block rendering exactly the
suffix `messages.drop (length - 10)` — the at-most-10 most recent
messages, oldest of that window first — as upper-cased `ROLE: content`
lines joined by newlines; the dropped prefix together with the window
reassembles the full ordered history. -/
theorem prompt_history_window (session : ChatSession) (msg : String) (upc : Bool)
    (hlen : session.messages.length > 1) :
    ChatHandler.build_prompt session msg upc
        = joinStrs "\n" ([sysInstruction] ++ docParts session upc ++
            ["\n\nConversation History:\n" ++
              joinStrs "\n" ((session.messages.drop
                (session.messages.length - 10)).map fmtMsg)] ++ [tailPart msg])
      ∧ pyLastN session.messages 10
          = session.messages.drop (session.messages.length - 10)
      ∧ (session.messages.drop (session.messages.length - 10)).length ≤ 10
      ∧ session.messages.take (session.messages.length - 10) ++
          session.messages.drop (session.messages.length - 10) = session.messages := by
  have hpy : pyLastN session.messages 10
      = session.messages.drop (session.messages.length - 10) := by
    unfold pyLastN
    simp
  refine ⟨?_, hpy, ?_, List.take_append_drop _ _⟩
  · rw [build_prompt_of_hist session msg upc hlen]
    unfold ChatSession.get_conversation_context
    rw [hpy]
  · rw [List.length_drop]
    omega

/-- Witness for C4: with fifteen prior messages (contents `"0"` … `"14"`)
the rendered window is exactly the last ten of them, `"5"` … `"14"`. -/
theorem prompt_history_window_witness :
    (ChatHandler.build_prompt fifteenSession "Q" false
        = joinStrs "\n" ([sysInstruction] ++ docParts fifteenSession false ++
            ["\n\nConversation History:\n" ++
              joinStrs "\n" ((fifteenSession.messages.drop
                (fifteenSession.messages.length - 10)).map fmtMsg)] ++ [tailPart "Q"])
      ∧ pyLastN fifteenSession.messages 10
          = fifteenSession.messages.drop (fifteenSession.messages.length - 10)
      ∧ (fifteenSession.messages.drop (fifteenSession.messages.length - 10)).length ≤ 10
      ∧ fifteenSession.messages.take (fifteenSession.messages.length - 10) ++
          fifteenSession.messages.drop (fifteenSession.messages.length - 10)
          = fifteenSession.messages)
      ∧ (fifteenSession.messages.drop (fifteenSession.messages.length - 10)).map
            Message.content
          = ["5", "6", "7", "8", "9", "10", "11", "12", "13", "14"] :=
  ⟨prompt_history_window fifteenSession "Q" false (by decide), by decide⟩


theorem chat_preserves_pdf (h : ChatHandler) (llm : String → Except String String)
    (sid msg : String) (upc : Bool) (now : Nat) (s : ChatSession)
    (hs : h.sessions sid = some s) :
    ((h.chat llm sid msg upc now).1.get_session sid).map ChatSession.pdf_context
        = some s.pdf_context
      ∧ ((h.chat llm sid msg upc now).1.get_session sid).map ChatSession.pdf_url
        = some s.pdf_url := by
  simp only [ChatHandler.chat, ChatHandler.get_or_create_session, hs]
  cases hllm : llm (ChatHandler.build_prompt (s.add_message "user" msg now) msg upc) <;>
    simp [hllm, ChatHandler.get_session, setStore, ChatSession.add_message]

/-- Claim C8: the binding decision of `chat_with_pdf` fetches exactly when
the session's current source differs from the requested one. When they are
equal the outcome does not depend on the fetch collaborator at all and the
existing binding is reused unchanged; when they differ a successful fetch
fully replaces both the context and the source, and a failed fetch
propagates as an error with no binding persisted. -/
theorem binding_decision (h : ChatHandler) (fetch fetch2 llm : String → Except String String)
    (sid url msg : String) (now : Nat) :
    ((h.get_or_create_session sid now).2.pdf_url = some url →
        chat_with_pdf h fetch llm sid url msg now
            = chat_with_pdf h fetch2 llm sid url msg now
          ∧ ((chat_with_pdf h fetch llm sid url msg now).1.get_session sid).map
              ChatSession.pdf_context
              = some (h.get_or_create_session sid now).2.pdf_context
          ∧ ((chat_with_pdf h fetch llm sid url msg now).1.get_session sid).map
              ChatSession.pdf_url = some (some url))
      ∧ (∀ text, (h.get_or_create_session sid now).2.pdf_url ≠ some url →
          fetch url = Except.ok text →
            ((chat_with_pdf h fetch llm sid url msg now).1.get_session sid).map
                ChatSession.pdf_context = some (some text)
              ∧ ((chat_with_pdf h fetch llm sid url msg now).1.get_session sid).map
                  ChatSession.pdf_url = some (some url))
      ∧ ∀ e, (h.get_or_create_session sid now).2.pdf_url ≠ some url →
          fetch url = Except.error e →
            chat_with_pdf h fetch llm sid url msg now
              = ((h.get_or_create_session sid now).1, Except.error e) := by
  refine ⟨fun heq => ⟨?_, ?_⟩, fun text hne hf => ?_, fun e hne hf => ?_⟩
  · simp only [chat_with_pdf, if_pos heq]
  · have hp := chat_preserves_pdf (h.get_or_create_session sid now).1 llm sid msg true now
      (h.get_or_create_session sid now).2 (get_or_create_stores h sid now)
    simp only [chat_with_pdf, if_pos heq]
    exact ⟨hp.1, heq ▸ hp.2⟩
  · have hp := chat_preserves_pdf
      { (h.get_or_create_session sid now).1 with
        sessions := setStore (h.get_or_create_session sid now).1.sessions sid
          (some ((h.get_or_create_session sid now).2.set_pdf_context url text now)) }
      llm sid msg true now
      ((h.get_or_create_session sid now).2.set_pdf_context url text now)
      (setStore_same _ _ _)
    simp only [chat_with_pdf, if_neg hne, hf]
    exact ⟨hp.1, hp.2⟩
  · simp only [chat_with_pdf, if_neg hne, hf]

theorem docConsistent_init (sid : String) (now : Nat) :
    docConsistent (ChatSession.init sid now) := rfl

theorem docConsistent_add_message (s : ChatSession) (r c : String) (now : Nat)
    (hd : docConsistent s) : docConsistent (s.add_message r c now) := hd

theorem docConsistent_set_pdf (s : ChatSession) (url text : String) (now : Nat) :
    docConsistent (s.set_pdf_context url text now) := rfl

theorem consistent_setStore (f : String → Option ChatSession) (sid : String)
    (v : Option ChatSession) (hf : ∀ k s, f k = some s → docConsistent s)
    (hv : ∀ s, v = some s → docConsistent s) :
    ∀ k s, setStore f sid v k = some s → docConsistent s := by
  intro k s hk
  unfold setStore at hk
  split at hk
  · exact hv s hk
  · exact hf k s hk

theorem storeConsistent_get_or_create (h : ChatHandler) (sid : String) (now : Nat)
    (hinv : StoreConsistent h) :
    StoreConsistent (h.get_or_create_session sid now).1
      ∧ docConsistent (h.get_or_create_session sid now).2 := by
  unfold ChatHandler.get_or_create_session ChatHandler.create_session
  cases hc : h.sessions sid with
  | none =>
    refine ⟨?_, docConsistent_init sid now⟩
    intro k s hk
    dsimp only at hk
    exact consistent_setStore _ _ _ hinv
      (fun s hs => by cases hs; exact docConsistent_init sid now) k s hk
  | some s =>
    exact ⟨hinv, hinv sid s hc⟩

theorem storeConsistent_chat (h : ChatHandler) (llm : String → Except String String)
    (sid msg : String) (upc : Bool) (now : Nat) (hinv : StoreConsistent h) :
    StoreConsistent (h.chat llm sid msg upc now).1 := by
  obtain ⟨h1inv, h2cons⟩ := storeConsistent_get_or_create h sid now hinv
  simp only [ChatHandler.chat]
  cases hllm : llm (ChatHandler.build_prompt
      ((h.get_or_create_session sid now).2.add_message "user" msg now) msg upc) with
  | ok r =>
    intro k s hk
    dsimp only at hk
    refine consistent_setStore _ _ _
      (consistent_setStore _ _ _ h1inv ?_) ?_ k s hk
    · intro s hs
      cases hs
      exact docConsistent_add_message _ _ _ _ h2cons
    · intro s hs
      cases hs
      exact docConsistent_add_message _ _ _ _ (docConsistent_add_message _ _ _ _ h2cons)
  | error e =>
    intro k s hk
    dsimp only at hk
    refine consistent_setStore _ _ _ h1inv ?_ k s hk
    intro s hs
    cases hs
    exact docConsistent_add_message _ _ _ _ h2cons

/-- Claim C9: the document-binding invariant — `pdf_context` and `pdf_url`
both absent or both set — holds of every reachable session state: a fresh
store satisfies it, `bindDocument` establishes it unconditionally, and
get-or-create, chat, deletion and the whole `chat_with_pdf` flow (whatever
the fetch and model collaborators return, including failures) preserve it
store-wide, so no partial binding is ever persisted. -/
theorem doc_binding_invariant (h : ChatHandler)
    (fetch llm : String → Except String String) (sid url msg text : String) (upc : Bool)
    (now now2 : Nat) (hinv : StoreConsistent h) :
    StoreConsistent (h.get_or_create_session sid now).1
      ∧ StoreConsistent (h.chat llm sid msg upc now).1
      ∧ StoreConsistent (h.clear_session sid).1
      ∧ StoreConsistent (chat_with_pdf h fetch llm sid url msg now).1
      ∧ ∀ x : ChatSession, docConsistent (x.set_pdf_context url text now2) := by
  refine ⟨(storeConsistent_get_or_create h sid now hinv).1,
    storeConsistent_chat h llm sid msg upc now hinv, ?_, ?_,
    fun x => docConsistent_set_pdf x url text now2⟩
  · unfold ChatHandler.clear_session
    split
    · intro k s hk
      dsimp only at hk
      exact consistent_setStore _ _ _ hinv (fun s hs => Option.noConfusion hs) k s hk
    · exact hinv
  · obtain ⟨h1inv, h2cons⟩ := storeConsistent_get_or_create h sid now hinv
    simp only [chat_with_pdf]
    split
    · exact storeConsistent_chat _ llm sid msg true now h1inv
    · cases hf : fetch url with
      | error e => exact h1inv
      | ok t =>
        apply storeConsistent_chat
        intro k s hk
        dsimp only at hk
        exact consistent_setStore _ _ _ h1inv
          (fun s hs => by cases hs; exact docConsistent_set_pdf _ _ _ _) k s hk

/-- Witness for C9: starting from the empty store (vacuously consistent),
the invariant holds after a chat on `"s1"`, a deletion, a `chat_with_pdf`
run that binds a document, and any direct binding. -/
theorem doc_binding_invariant_witness :
    StoreConsistent (ChatHandler.init.get_or_create_session "s1" 0).1
      ∧ StoreConsistent (ChatHandler.init.chat (fun _ => Except.ok "x") "s1" "Hi" true 0).1
      ∧ StoreConsistent (ChatHandler.init.clear_session "s1").1
      ∧ StoreConsistent (chat_with_pdf ChatHandler.init (fun _ => Except.ok "text")
          (fun _ => Except.ok "x") "s1" "http://example.com/a.pdf" "Hi" 0).1
      ∧ ∀ x : ChatSession, docConsistent (x.set_pdf_context "http://example.com/a.pdf"
          "text" 1) :=
  doc_binding_invariant ChatHandler.init (fun _ => Except.ok "text")
    (fun _ => Except.ok "x") "s1" "http://example.com/a.pdf" "Hi" "text" true 0 1
    (fun _ _ hs => Option.noConfusion hs)

/-- Claim C10: because `chat` appends the current user message to the
session before `_build_prompt` runs, whenever the session already had at
least one message the assembled prompt contains the current message twice:
as the final upper-cased `USER: ...` line of the Conversation History
block (it is the last entry of the rendered window), and again in the
trailing `User: ...` line before the `Assistant:` cue. The first equation
exhibits both occurrences explicitly. -/
theorem current_message_rendered_twice (s : ChatSession) (msg : String) (upc : Bool)
    (now : Nat) (hne : s.messages ≠ []) :
    ChatHandler.build_prompt (s.add_message "user" msg now) msg upc
        = joinStrs "\n" ([sysInstruction] ++ docParts s upc) ++ "\n" ++
            "\n\nConversation History:\n" ++
            joinStrs "\n" ((s.messages.drop (s.messages.length + 1 - 10)).map fmtMsg) ++
            "\n" ++ ("USER: " ++ msg) ++ "\n" ++ tailPart msg
      ∧ tailPart msg = "\n\nUser: " ++ msg ++ "\n\nAssistant:"
      ∧ (pyLastN (s.add_message "user" msg now).messages 10).getLast?
          = some { role := "user", content := msg, timestamp := now } := by
  have hpos : 0 < s.messages.length := List.length_pos.mpr hne
  have hm : (s.add_message "user" msg now).messages
      = s.messages ++ [{ role := "user", content := msg, timestamp := now }] := rfl
  have hone : ([{ role := "user", content := msg, timestamp := now }] : List Message).length
      = 1 := rfl
  have hlen : (s.add_message "user" msg now).messages.length > 1 := by
    rw [hm, List.length_append, hone]
    omega
  have hwin : pyLastN (s.add_message "user" msg now).messages 10
      = s.messages.drop (s.messages.length + 1 - 10) ++
          [{ role := "user", content := msg, timestamp := now }] := by
    unfold pyLastN
    rw [if_neg (by norm_num), hm, List.length_append, hone]
    exact List.drop_append_of_le_length (by omega)
  have hdropne : (s.messages.drop (s.messages.length + 1 - 10)).map fmtMsg ≠ [] := by
    rw [ne_eq, List.map_eq_nil_iff, List.drop_eq_nil_iff]
    omega
  have hfu : fmtMsg { role := "user", content := msg, timestamp := now }
      = "USER: " ++ msg := by
    show pyUpper "user" ++ ": " ++ msg = "USER: " ++ msg
    rw [show pyUpper "user" = "USER" from by decide]
    rw [show ("USER" ++ ": " : String) = "USER: " from by decide]
  have hrecent : (s.add_message "user" msg now).get_conversation_context 10
      = joinStrs "\n" ((s.messages.drop (s.messages.length + 1 - 10)).map fmtMsg) ++
          "\n" ++ ("USER: " ++ msg) := by
    unfold ChatSession.get_conversation_context
    rw [hwin, List.map_append, List.map_cons, List.map_nil,
      joinStrs_append_singleton _ _ _ hdropne, hfu]
  refine ⟨?_, rfl, ?_⟩
  · rw [build_prompt_of_hist _ _ _ hlen]
    have hdoc : docParts (s.add_message "user" msg now) upc = docParts s upc := rfl
    rw [hrecent, hdoc]
    rw [joinStrs_append_singleton _ _ _ (by simp)]
    rw [joinStrs_append_singleton _ _ _ (by simp)]
    apply String.ext
    simp
  · rw [hwin]
    exact List.getLast?_concat _

/-- Witness for C10: a session with one prior message and new message
`"again"` yields a prompt whose history block ends with `USER: again` and
whose trailing cue repeats `User: again`. -/
theorem current_message_rendered_twice_witness :
    ChatHandler.build_prompt (oneMsgSession.add_message "user" "again" 1) "again" false
        = joinStrs "\n" ([sysInstruction] ++ docParts oneMsgSession false) ++ "\n" ++
            "\n\nConversation History:\n" ++
            joinStrs "\n" ((oneMsgSession.messages.drop
              (oneMsgSession.messages.length + 1 - 10)).map fmtMsg) ++
            "\n" ++ ("USER: " ++ "again") ++ "\n" ++ tailPart "again"
      ∧ tailPart "again" = "\n\nUser: " ++ "again" ++ "\n\nAssistant:"
      ∧ (pyLastN (oneMsgSession.add_message "user" "again" 1).messages 10).getLast?
          = some { role := "user", content := "again", timestamp := 1 } :=
  current_message_rendered_twice oneMsgSession "again" false 1 (by decide)

/-- Witness for C8: with session `"s2"` already bound to the requested
source, the outcome is the same under a succeeding and a failing fetch and
the binding is reused; on a fresh session the fetch result is bound
(both fields replaced), and a fetch failure propagates as an error. -/
theorem binding_decision_witness :
    (chat_with_pdf boundHandler (fun _ => Except.ok "text") (fun _ => Except.ok "x") "s2"
          "http://example.com/a.pdf" "Hi" 0
        = chat_with_pdf boundHandler (fun _ => Except.error "down")
            (fun _ => Except.ok "x") "s2" "http://example.com/a.pdf" "Hi" 0
      ∧ ((chat_with_pdf boundHandler (fun _ => Except.ok "text") (fun _ => Except.ok "x")
            "s2" "http://example.com/a.pdf" "Hi" 0).1.get_session "s2").map
          ChatSession.pdf_context = some (some bigDoc)
      ∧ ((chat_with_pdf boundHandler (fun _ => Except.ok "text") (fun _ => Except.ok "x")
            "s2" "http://example.com/a.pdf" "Hi" 0).1.get_session "s2").map
          ChatSession.pdf_url = some (some "http://example.com/a.pdf"))
      ∧ (((chat_with_pdf ChatHandler.init (fun _ => Except.ok "text")
            (fun _ => Except.ok "x") "s1" "http://example.com/a.pdf" "Hi" 0).1.get_session
            "s1").map ChatSession.pdf_context = some (some "text")
        ∧ ((chat_with_pdf ChatHandler.init (fun _ => Except.ok "text")
            (fun _ => Except.ok "x") "s1" "http://example.com/a.pdf" "Hi"
              0).1.get_session "s1").map ChatSession.pdf_url
            = some (some "http://example.com/a.pdf"))
      ∧ chat_with_pdf ChatHandler.init (fun _ => Except.error "down")
            (fun _ => Except.ok "x") "s1" "http://example.com/a.pdf" "Hi" 0
          = ((ChatHandler.init.get_or_create_session "s1" 0).1, Except.error "down") :=
  ⟨(binding_decision boundHandler (fun _ => Except.ok "text")
      (fun _ => Except.error "down") (fun _ => Except.ok "x") "s2"
      "http://example.com/a.pdf" "Hi" 0).1 rfl,
    (binding_decision ChatHandler.init (fun _ => Except.ok "text")
      (fun _ => Except.error "down") (fun _ => Except.ok "x") "s1"
      "http://example.com/a.pdf" "Hi" 0).2.1 "text" (by decide) rfl,
    (binding_decision ChatHandler.init (fun _ => Except.error "down")
      (fun _ => Except.ok "text") (fun _ => Except.ok "x") "s1"
      "http://example.com/a.pdf" "Hi" 0).2.2 "down" (by decide) rfl⟩
